import Mathlib

/-!
Verification of the LD_PRELOAD interposition shim
(`src/utils/ld-preload-flash-harness/path-mapping.c`).

The shim hooks `fopen64`, `fwrite` and (behind `HOOK_TRUNCATE`) `truncate`.
A path ending in `PATH_ENDING` is opened as `/dev/null`; the resulting
`FILE*` is remembered in the global `fake_log`, and every later `fwrite`
whose stream has the same underlying descriptor number is redirected to
stdout (via `fprintf(stdout, "%s", ptr)` followed by `fflush(stdout)`)
instead of being written for real.

Shallow embedding conventions:
* C strings are byte lists (`List Nat`) with no interior NUL; a nullable
  `const char*` is an `Option (List Nat)`.
* A `FILE*` is a `CFile`: `id` models the pointer identity of the FILE
  object, `fileno` models the `_fileno` field (the numeric descriptor),
  and `openedPath` is a ghost field recording which path the genuine
  `fopen64` was asked to open when it produced this handle.
* The genuine glibc implementations resolved by `dlsym(RTLD_NEXT, ...)`
  in `init_preload` are an environment `Env` of opaque-to-the-shim
  functions; `Env.WF` says the genuine open tags each returned handle
  with the path it was opened on.
* The single global `FILE* fake_log` is the state `HarnessState`,
  threaded explicitly.
* `size_t` arithmetic is `Nat` reduced mod `2 ^ 64` where the C code
  multiplies.
* Observable effects of one `fwrite` call (bytes printed to stdout,
  whether stdout was flushed, whether the genuine `fwrite` was invoked)
  are returned in a `WriteResult` record; similarly `TruncResult` for
  `truncate`.
-/

namespace PathMapping

/-- Byte content of an ASCII string literal, as the list of character codes. -/
def strBytes (s : String) : List Nat := s.data.map Char.toNat

/-- `const char* PATH_ENDING = ".macromedia/Flash_Player/Logs/flashlog.txt";` -/
def PATH_ENDING : List Nat := strBytes (".macromedia/Flash_Player/Logs/flashlog.txt")

/-- The fixed discard destination opened on a matching `fopen64`. -/
def DEV_NULL : List Nat := strBytes ("/dev/null")

/-- `int endswith(const char* haystack, const char* needle)`:
returns `-1` when either argument is NULL, else `1` when `haystack`
ends with `needle` (byte-exact `strncmp`), else `0`. -/
def endswith (haystack needle : Option (List Nat)) : Int :=
  match haystack, needle with
  | none, _ => -1
  | some _, none => -1
  | some h, some n =>
    if n.length > h.length then 0
    else if h.drop (h.length - n.length) = n then 1 else 0

/-- A `FILE*` object: `id` is the pointer identity of the FILE structure,
`fileno` its `_fileno` descriptor number, `openedPath` a ghost field
recording the path the genuine open was called with. -/
structure CFile where
  id : Nat
  fileno : Nat
  openedPath : Option (List Nat)
deriving DecidableEq

/-- The genuine glibc implementations, as resolved once by
`dlsym(RTLD_NEXT, ...)` in `init_preload`. -/
structure Env where
  open64 : Option (List Nat) → List Nat → Option CFile
  fwrite : List Nat → Nat → Nat → CFile → Nat
  trunc : Option (List Nat) → Int → Int

/-- Well-formed environment: the genuine open tags every handle it
returns with the path it was asked to open. -/
def Env.WF (e : Env) : Prop :=
  ∀ p m h, e.open64 p m = some h → h.openedPath = p

/-- The single piece of global mutable state: `FILE* fake_log = 0;`.
`none` models the NULL pointer. -/
structure HarnessState where
  fake_log : Option CFile
deriving DecidableEq

/-- Initial state at library load: `fake_log = 0`. -/
def initState : HarnessState := ⟨none⟩

/-- `FILE* fopen64(const char* pathname, const char* flags)`:
on a suffix match, open `/dev/null` with the caller's flags, store the
result (even NULL) in `fake_log`, and return it; otherwise delegate to
the genuine `fopen64` and leave the state alone. -/
def fopen64 (env : Env) (s : HarnessState) (pathname : Option (List Nat))
    (flags : List Nat) : Option CFile × HarnessState :=
  if endswith pathname (some PATH_ENDING) = 1 then
    (env.open64 (some DEV_NULL) flags, ⟨env.open64 (some DEV_NULL) flags⟩)
  else
    (env.open64 pathname flags, s)

/-- The sink test in `fwrite`:
`fake_log != 0 && stream->_fileno == fake_log->_fileno`. -/
def isSinkWrite (s : HarnessState) (stream : CFile) : Bool :=
  match s.fake_log with
  | some fl => stream.fileno == fl.fileno
  | none => false

/-- `size_t` wraps at `2 ^ 64`. -/
def SIZE_T_MOD : Nat := 2 ^ 64

/-- Observable outcome of one `fwrite` call: the returned `size_t`, the
bytes this call printed to stdout, whether it flushed stdout, and
whether it invoked the genuine `fwrite`. -/
structure WriteResult where
  ret : Nat
  stdout_bytes : List Nat
  stdout_flushed : Bool
  delegated : Bool
deriving DecidableEq

/-- `size_t fwrite(const void* ptr, size_t size, size_t nmemb, FILE* stream)`:
if `fake_log` is set and `stream` has its descriptor number, print `ptr`
as a C string to stdout (`fprintf(stdout, "%s", ptr)` emits the bytes up
to the first NUL), flush stdout, and return `size * nmemb`; otherwise
delegate to the genuine `fwrite`. `ptr` is the byte content of memory
starting at the data pointer. The state is never mutated. -/
def fwrite (env : Env) (s : HarnessState) (ptr : List Nat) (size nmemb : Nat)
    (stream : CFile) : WriteResult :=
  if isSinkWrite s stream then
    ⟨size * nmemb % SIZE_T_MOD, ptr.takeWhile (fun b => b != 0), true, false⟩
  else
    ⟨env.fwrite ptr size nmemb stream, [], false, true⟩

/-- Observable outcome of one `truncate` call. -/
structure TruncResult where
  ret : Int
  delegated : Bool
deriving DecidableEq

/-- `int truncate(const char* pathname, __off_t length)` (the
`HOOK_TRUNCATE` variant): a suffix match is a no-op returning `0`;
anything else delegates to the genuine `truncate`. It reads neither
`fake_log` nor any other state. -/
def truncate (env : Env) (_s : HarnessState) (pathname : Option (List Nat))
    (length : Int) : TruncResult :=
  if endswith pathname (some PATH_ENDING) = 1 then
    ⟨0, false⟩
  else
    ⟨env.trunc pathname length, true⟩

/-- One call into a hooked entry point. -/
inductive HookCall where
  | openCall : Option (List Nat) → List Nat → HookCall
  | writeCall : List Nat → Nat → Nat → CFile → HookCall
  | truncCall : Option (List Nat) → Int → HookCall

/-- State transition of one hooked call: only `fopen64` assigns
`fake_log`; `fwrite` and `truncate` never touch the state. -/
def stepState (env : Env) (s : HarnessState) : HookCall → HarnessState
  | HookCall.openCall p f => (fopen64 env s p f).2
  | HookCall.writeCall _ _ _ _ => s
  | HookCall.truncCall _ _ => s

/-- State after a sequence of hooked calls. -/
def runCalls (env : Env) (s : HarnessState) (calls : List HookCall) : HarnessState :=
  calls.foldl (stepState env) s

/-- A concrete environment whose genuine open always succeeds and tags
the handle with the requested path. -/
def envTriv : Env :=
  ⟨fun p _ => some ⟨0, 7, p⟩, fun _ _ _ _ => 0, fun _ _ => 0⟩

/-- A concrete environment whose genuine open always fails. -/
def envNone : Env :=
  ⟨fun _ _ => none, fun _ _ _ _ => 0, fun _ _ => 0⟩

/-- A state in which the sink reference holds a handle with descriptor 3. -/
def sinkState : HarnessState := ⟨some ⟨0, 3, some DEV_NULL⟩⟩

/-- A distinct FILE object (different pointer identity) wrapping
descriptor 3. -/
def otherFile : CFile := ⟨1, 3, none⟩

/-- The environment `envTriv` is well-formed: its open tags handles with
the requested path. -/
theorem envTriv_wf : Env.WF envTriv := by
  intro p m h hh
  simp only [envTriv] at hh
  injection hh with h1
  rw [← h1]

/-- C3: `endswith` returns indeterminate (-1) exactly when at least one
argument is NULL, and on present arguments returns match (1) exactly when
the final `len(needle)` bytes of the haystack byte-equal the needle. -/
theorem C3_endswith_tristate :
    (∀ h n : Option (List Nat), endswith h n = -1 ↔ h = none ∨ n = none) ∧
    (∀ hs ns : List Nat, endswith (some hs) (some ns) = 1 ↔ List.IsSuffix ns hs) := by
  constructor
  · intro h n
    match h, n with
    | none, _ => simp [endswith]
    | some hs, none => simp [endswith]
    | some hs, some ns =>
      simp only [endswith]
      constructor
      · intro he
        exfalso
        split at he
        · exact absurd he (by decide)
        · split at he
          · exact absurd he (by decide)
          · exact absurd he (by decide)
      · rintro (h1 | h1) <;> exact Option.noConfusion h1
  · intro hs ns
    simp only [endswith]
    split
    · rename_i hgt
      refine iff_of_false (by decide) (fun hsuf => ?_)
      exact absurd hsuf.length_le (by omega)
    · rename_i hle
      split
      · rename_i heq
        exact iff_of_true rfl (List.suffix_iff_eq_drop.mpr heq.symm)
      · rename_i hne
        refine iff_of_false (by decide) (fun hsuf => ?_)
        exact hne (List.suffix_iff_eq_drop.mp hsuf).symm

/-- C4 (counterexample): with both arguments present, `endswith` can
return no-match (0) even though the needle is not longer than the
haystack, so "no-match iff len(suffix) > len(path)" is false. -/
theorem C4_counterexample :
    ¬ (endswith (some [98]) (some [97]) = 0 ↔
        List.length ([97] : List Nat) > List.length ([98] : List Nat)) := by
  decide

/-- C4 (amended): with both arguments present, `endswith` returns
no-match (0) exactly when the needle is not a byte-suffix of the
haystack; in particular whenever the needle is longer. -/
theorem C4_amended_no_match (hs ns : List Nat) :
    endswith (some hs) (some ns) = 0 ↔ ¬ List.IsSuffix ns hs := by
  simp only [endswith]
  split
  · rename_i hgt
    refine iff_of_true rfl (fun hsuf => ?_)
    exact absurd hsuf.length_le (by omega)
  · rename_i hle
    split
    · rename_i heq
      exact iff_of_false (by decide)
        (fun hns => hns (List.suffix_iff_eq_drop.mpr heq.symm))
    · rename_i hne
      exact iff_of_true rfl (fun hsuf => hne (List.suffix_iff_eq_drop.mp hsuf).symm)

/-- C2: a matching `fopen64` never opens the requested path: it opens
`/dev/null` with the caller's flags, stores that handle in `fake_log`
(overwriting whatever state was there), and returns the same handle. -/
theorem C2_open_matched (env : Env) (s : HarnessState) (p flags : List Nat)
    (hm : endswith (some p) (some PATH_ENDING) = 1) :
    (fopen64 env s (some p) flags).1 = env.open64 (some DEV_NULL) flags ∧
    (fopen64 env s (some p) flags).2.fake_log = env.open64 (some DEV_NULL) flags := by
  constructor <;> simp only [fopen64, if_pos hm]

/-- C2 witness at the configured suffix itself. -/
theorem C2_open_matched_witness :
    endswith (some PATH_ENDING) (some PATH_ENDING) = 1 ∧
    ((fopen64 envTriv sinkState (some PATH_ENDING) [119]).1 =
        envTriv.open64 (some DEV_NULL) [119] ∧
      (fopen64 envTriv sinkState (some PATH_ENDING) [119]).2.fake_log =
        envTriv.open64 (some DEV_NULL) [119]) :=
  ⟨by decide, C2_open_matched envTriv sinkState PATH_ENDING [119] (by decide)⟩

/-- C7: a non-matching or NULL-path `fopen64` delegates to the genuine
open with the original arguments, returns its result (failure included)
unmodified, and leaves `fake_log` untouched. -/
theorem C7_open_passthrough (env : Env) (s : HarnessState)
    (p : Option (List Nat)) (flags : List Nat)
    (hnm : endswith p (some PATH_ENDING) ≠ 1) :
    fopen64 env s p flags = (env.open64 p flags, s) := by
  simp only [fopen64, if_neg hnm]

/-- C7 witness on a non-matching path, with a set sink reference. -/
theorem C7_open_passthrough_witness :
    endswith (some (strBytes ("/tmp/other.txt"))) (some PATH_ENDING) ≠ 1 ∧
    fopen64 envTriv sinkState (some (strBytes ("/tmp/other.txt"))) [114] =
      (envTriv.open64 (some (strBytes ("/tmp/other.txt"))) [114], sinkState) :=
  ⟨by decide,
    C7_open_passthrough envTriv sinkState (some (strBytes ("/tmp/other.txt"))) [114]
      (by decide)⟩

/-- C5: `fwrite` classifies a call as a sink write exactly when
`fake_log` is set and the stream's descriptor number equals the sink
handle's descriptor number; the classification depends only on the
descriptor number (not on the FILE object's pointer identity), and
`fwrite` delegates to the genuine write exactly on non-sink calls. -/
theorem C5_sink_classification :
    (∀ (s : HarnessState) (stream : CFile),
      isSinkWrite s stream = true ↔
        ∃ fl, s.fake_log = some fl ∧ stream.fileno = fl.fileno) ∧
    (∀ (s : HarnessState) (a b : CFile), a.fileno = b.fileno →
      isSinkWrite s a = isSinkWrite s b) ∧
    (∀ (env : Env) (s : HarnessState) (ptr : List Nat) (size nmemb : Nat)
      (stream : CFile),
      (fwrite env s ptr size nmemb stream).delegated = !(isSinkWrite s stream)) := by
  refine ⟨?_, ?_, ?_⟩
  · intro s stream
    obtain ⟨fl2⟩ := s
    cases fl2 with
    | none => simp [isSinkWrite]
    | some fl => simp [isSinkWrite]
  · intro s a b hab
    obtain ⟨fl2⟩ := s
    cases fl2 with
    | none => simp [isSinkWrite]
    | some fl => simp [isSinkWrite, hab]
  · intro env s ptr size nmemb stream
    by_cases hsk : isSinkWrite s stream <;> simp [fwrite, hsk]

/-- C5 witness: two FILE objects with distinct pointer identities but the
same descriptor number are classified alike (and as the sink here). -/
theorem C5_sink_classification_witness :
    (⟨5, 3, none⟩ : CFile).fileno = (⟨6, 3, none⟩ : CFile).fileno ∧
    isSinkWrite sinkState ⟨5, 3, none⟩ = isSinkWrite sinkState ⟨6, 3, none⟩ :=
  ⟨rfl, C5_sink_classification.2.1 sinkState ⟨5, 3, none⟩ ⟨6, 3, none⟩ rfl⟩

/-- C1 (counterexample): a sink write of 2 bytes whose payload contains
an interior NUL emits only the bytes before the NUL to stdout, not all
size × count bytes — `fprintf(stdout, "%s", ptr)` truncates at NUL. -/
theorem C1_counterexample :
    isSinkWrite sinkState otherFile = true ∧
    (fwrite envTriv sinkState [72, 0] 1 2 otherFile).stdout_bytes ≠
      List.take (1 * 2) [72, 0] := by
  decide

/-- C1 (amended): on a sink write no genuine write happens; the bytes of
the payload up to (excluding) the first NUL — the payload read as a C
string, independent of size × count — are emitted to stdout, and stdout
is flushed before returning. -/
theorem C1_amended_redirect (env : Env) (s : HarnessState) (ptr : List Nat)
    (size nmemb : Nat) (stream : CFile) (hsink : isSinkWrite s stream = true) :
    (fwrite env s ptr size nmemb stream).delegated = false ∧
    (fwrite env s ptr size nmemb stream).stdout_bytes =
      ptr.takeWhile (fun b => b != 0) ∧
    (fwrite env s ptr size nmemb stream).stdout_flushed = true := by
  refine ⟨?_, ?_, ?_⟩ <;> simp only [fwrite, if_pos hsink]

/-- C1 (amended) witness on a concrete sink write. -/
theorem C1_amended_redirect_witness :
    isSinkWrite sinkState otherFile = true ∧
    ((fwrite envTriv sinkState [104, 105, 10] 1 3 otherFile).delegated = false ∧
      (fwrite envTriv sinkState [104, 105, 10] 1 3 otherFile).stdout_bytes =
        List.takeWhile (fun b => b != 0) [104, 105, 10] ∧
      (fwrite envTriv sinkState [104, 105, 10] 1 3 otherFile).stdout_flushed = true) :=
  ⟨by decide, C1_amended_redirect envTriv sinkState [104, 105, 10] 1 3 otherFile (by decide)⟩

/-- C6: every sink write returns size × count (as a `size_t`, i.e. mod
2^64, which is exactly size × count whenever the product fits),
independent of the payload contents and of the genuine implementations —
the redirect path never partially fails. -/
theorem C6_sink_write_full_success (env : Env) (s : HarnessState)
    (ptr : List Nat) (size nmemb : Nat) (stream : CFile)
    (hsink : isSinkWrite s stream = true) :
    (fwrite env s ptr size nmemb stream).ret = size * nmemb % SIZE_T_MOD ∧
    (size * nmemb < SIZE_T_MOD →
      (fwrite env s ptr size nmemb stream).ret = size * nmemb) := by
  constructor
  · simp only [fwrite, if_pos hsink]
  · intro hlt
    simp only [fwrite, if_pos hsink]
    exact Nat.mod_eq_of_lt hlt

/-- C6 witness: a concrete 1 × 3 sink write returns 3. -/
theorem C6_sink_write_full_success_witness :
    (isSinkWrite sinkState otherFile = true ∧ 1 * 3 < SIZE_T_MOD) ∧
    (fwrite envTriv sinkState [1, 2, 3] 1 3 otherFile).ret = 1 * 3 :=
  ⟨⟨by decide, by decide⟩,
    (C6_sink_write_full_success envTriv sinkState [1, 2, 3] 1 3 otherFile
      (by decide)).2 (by decide)⟩

/-- C8: with `HOOK_TRUNCATE` enabled, a matching `truncate` is a no-op
returning success (0) without delegating; a non-matching one delegates
and propagates the genuine result; and the outcome never depends on the
sink handle reference. -/
theorem C8_truncate_hook :
    (∀ (env : Env) (s : HarnessState) (p : List Nat) (l : Int),
      endswith (some p) (some PATH_ENDING) = 1 →
        truncate env s (some p) l = ⟨0, false⟩) ∧
    (∀ (env : Env) (s : HarnessState) (p : Option (List Nat)) (l : Int),
      endswith p (some PATH_ENDING) ≠ 1 →
        truncate env s p l = ⟨env.trunc p l, true⟩) ∧
    (∀ (env : Env) (s1 s2 : HarnessState) (p : Option (List Nat)) (l : Int),
      truncate env s1 p l = truncate env s2 p l) := by
  refine ⟨?_, ?_, ?_⟩
  · intro env s p l hm
    simp only [truncate, if_pos hm]
  · intro env s p l hm
    simp only [truncate, if_neg hm]
  · intro env s1 s2 p l
    rfl

/-- C8 witness: truncating the matched path is a success no-op,
whatever the sink state holds. -/
theorem C8_truncate_hook_witness :
    endswith (some PATH_ENDING) (some PATH_ENDING) = 1 ∧
    truncate envTriv sinkState (some PATH_ENDING) 5 = ⟨0, false⟩ :=
  ⟨by decide, C8_truncate_hook.1 envTriv sinkState PATH_ENDING 5 (by decide)⟩

/-- One hooked call preserves the sink invariant: if every handle stored
in `fake_log` was opened on `/dev/null`, that stays true. -/
theorem sinkInv_step (env : Env) (hwf : env.WF) (s : HarnessState)
    (hs : ∀ h, s.fake_log = some h → h.openedPath = some DEV_NULL)
    (c : HookCall) :
    ∀ h, (stepState env s c).fake_log = some h → h.openedPath = some DEV_NULL := by
  cases c with
  | openCall p f =>
    intro h hh
    simp only [stepState, fopen64] at hh
    split at hh
    · exact hwf _ _ _ hh
    · exact hs h hh
  | writeCall ptr size nmemb stream => exact hs
  | truncCall p l => exact hs

/-- Running any sequence of hooked calls preserves the sink invariant. -/
theorem sinkInv_run (env : Env) (hwf : env.WF) (calls : List HookCall) :
    ∀ (s : HarnessState),
      (∀ h2, s.fake_log = some h2 → h2.openedPath = some DEV_NULL) →
      ∀ h2, (runCalls env s calls).fake_log = some h2 →
        h2.openedPath = some DEV_NULL := by
  induction calls with
  | nil => intro s hs; exact hs
  | cons c cs ih =>
    intro s hs
    simp only [runCalls, List.foldl]
    exact ih (stepState env s c) (sinkInv_step env hwf s hs c)

/-- C9: after any sequence of hooked calls from the initial state, a
non-none `fake_log` holds a handle obtained by the genuine open of
`/dev/null` inside the matching branch of `fopen64` — never a handle of
a pass-through open of a caller-requested path. -/
theorem C9_sink_invariant (env : Env) (hwf : env.WF) (calls : List HookCall)
    (h : CFile) (hfl : (runCalls env initState calls).fake_log = some h) :
    h.openedPath = some DEV_NULL :=
  sinkInv_run env hwf calls initState (fun h2 hh => Option.noConfusion hh) h hfl

/-- C9 witness: one matching open under `envTriv` leaves a sink handle
that records `/dev/null`. -/
theorem C9_sink_invariant_witness :
    (runCalls envTriv initState [HookCall.openCall (some PATH_ENDING) [119]]).fake_log =
      some ⟨0, 7, some DEV_NULL⟩ ∧
    (⟨0, 7, some DEV_NULL⟩ : CFile).openedPath = some DEV_NULL :=
  ⟨by decide,
    C9_sink_invariant envTriv envTriv_wf [HookCall.openCall (some PATH_ENDING) [119]]
      ⟨0, 7, some DEV_NULL⟩ (by decide)⟩

/-- C10: when a matching open's attempt on `/dev/null` fails, NULL is
both returned to the caller and stored in `fake_log` (resetting it to
none), and in that state every `fwrite` delegates to the genuine write —
until some later matching open succeeds. -/
theorem C10_failed_sink_open (env : Env) (s : HarnessState) (p flags : List Nat)
    (hm : endswith (some p) (some PATH_ENDING) = 1)
    (hfail : env.open64 (some DEV_NULL) flags = none) :
    fopen64 env s (some p) flags = (none, ⟨none⟩) ∧
    ∀ (ptr : List Nat) (size nmemb : Nat) (stream : CFile),
      fwrite env ⟨none⟩ ptr size nmemb stream =
        ⟨env.fwrite ptr size nmemb stream, [], false, true⟩ := by
  constructor
  · simp only [fopen64, if_pos hm, hfail]
  · intro ptr size nmemb stream
    rfl

/-- C10 witness: with an always-failing genuine open, a matching open
returns NULL and clears the sink reference; a write in that state
delegates. -/
theorem C10_failed_sink_open_witness :
    (endswith (some PATH_ENDING) (some PATH_ENDING) = 1 ∧
      envNone.open64 (some DEV_NULL) [119] = none) ∧
    fopen64 envNone sinkState (some PATH_ENDING) [119] = (none, ⟨none⟩) :=
  ⟨⟨by decide, rfl⟩,
    (C10_failed_sink_open envNone sinkState PATH_ENDING [119] (by decide) rfl).1⟩

end PathMapping
